import Mathlib

/-!
Verification of the weather dashboard scripts (src/script.js and the two
parallel revisions src/unnamed/part_000, src/unnamed/part_001).

The scripts are browser glue around a small pure core: unit conversion,
WMO-code lookup tables, and the projection of a raw Open-Meteo forecast
payload into a presentation model.  We embed that core shallowly:

* JS numbers are modelled by `ℚ` (the claims only exercise finite values);
  `Math.round` is modelled by `jsRound`, i.e. `⌊x + 1/2⌋`, which is the JS
  semantics on finite values.
* JS arrays are Lean lists; an out-of-range read (JS `undefined` flowing
  into arithmetic/markup without an exception) is modelled by `List.getD`
  with a neutral default — the scripts never throw on such reads, they
  render garbage, so reaching such a read keeps the projection total.
* Host-locale formatting (`toLocaleTimeString`, `toLocaleDateString`) is
  a collaborator; we abstract it as a `LocaleFmt` record of formatting
  functions, since the source delegates entirely to the host.
* `fetch` results are modelled by explicit outcome datatypes.
-/

namespace Weather

/-- JS `Math.round` on finite numbers: round half towards +∞, i.e. `⌊x + 1/2⌋`. -/
def jsRound (q : ℚ) : Int := ⌊q + 1 / 2⌋

/-- Embedding of `formatTemp` from src/script.js lines 372-378 (identical in
both other revisions); `isCelsius` is the global unit flag of the script. -/
def formatTemp (isCelsius : Bool) (celsius : ℚ) : Int :=
  if isCelsius then jsRound celsius else jsRound (celsius * 9 / 5 + 32)

/-- The wind conversion factor `0.621371` appearing in the source. -/
def kmhToMph : ℚ := 621371 / 1000000

/-- Wind speed rendering from src/script.js lines 214-215 / 329-330:
`Math.round` of km/h under the metric flag, `Math.round` of km/h × 0.621371
under the imperial flag, with the unit label. -/
def windDisplayStr (isCelsius : Bool) (kmh : ℚ) : String :=
  if isCelsius then toString (jsRound kmh) ++ " km/h"
  else toString (jsRound (kmh * kmhToMph)) ++ " mph"

/-- The day suffix binding (const day) of `mapWmoToOwmIcon`: d by day, n by
night. -/
def daySuffix (isDay : Bool) : String := if isDay then "d" else "n"

/-- Embedding of `mapWmoToOwmIcon` from src/script.js lines 423-445
(identical in both other revisions): piecewise map from a WMO code to an OpenWeatherMap icon
code, suffixed with "d"/"n" by the day flag. -/
def mapWmoToOwmIcon (wmoCode : Nat) (isDay : Bool) : String :=
  let day := daySuffix isDay
  if wmoCode = 0 then "01" ++ day
  else if wmoCode = 1 then "02" ++ day
  else if wmoCode = 2 then "03" ++ day
  else if wmoCode = 3 then "04" ++ day
  else if wmoCode ∈ [45, 48] then "50" ++ day
  else if wmoCode ∈ [51, 53, 55, 56, 57, 61, 63, 65, 66, 67, 80, 81, 82] then "10" ++ day
  else if wmoCode ∈ [71, 73, 75, 77, 85, 86] then "13" ++ day
  else if wmoCode ∈ [95, 96, 99] then "11" ++ day
  else "03" ++ day

/-- The two-digit icon base that the table of the specification assigns to a
(spec §4.1): 0→"01", 1→"02", 2→"03", 3→"04", {45,48}→"50", the drizzle/rain
group→"10", the snow group→"13", the thunderstorm group→"11", default "03". -/
def iconBaseSpec (code : Nat) : String :=
  if code = 0 then "01"
  else if code = 1 then "02"
  else if code = 2 then "03"
  else if code = 3 then "04"
  else if code ∈ [45, 48] then "50"
  else if code ∈ [51, 53, 55, 56, 57, 61, 63, 65, 66, 67, 80, 81, 82] then "10"
  else if code ∈ [71, 73, 75, 77, 85, 86] then "13"
  else if code ∈ [95, 96, 99] then "11"
  else "03"

/-- The icon identifier the specification describes: the table base suffixed
with "d" when `isDay` and "n" otherwise. -/
def iconIdSpec (code : Nat) (isDay : Bool) : String :=
  iconBaseSpec code ++ (if isDay then "d" else "n")

/-- The WMO description table from `getWeatherDescription`,
src/script.js lines 385-421 (identical in both other revisions). -/
def wmoDescriptionTable : List (Nat × String) :=
  [(0, "Clear sky"), (1, "Mainly clear"), (2, "Partly cloudy"), (3, "Overcast"),
   (45, "Fog"), (48, "Depositing rime fog"),
   (51, "Light drizzle"), (53, "Moderate drizzle"), (55, "Dense drizzle"),
   (56, "Light freezing drizzle"), (57, "Dense freezing drizzle"),
   (61, "Slight rain"), (63, "Moderate rain"), (65, "Heavy rain"),
   (66, "Light freezing rain"), (67, "Heavy freezing rain"),
   (71, "Slight snow fall"), (73, "Moderate snow fall"), (75, "Heavy snow fall"),
   (77, "Snow grains"),
   (80, "Slight rain showers"), (81, "Moderate rain showers"), (82, "Violent rain showers"),
   (85, "Slight snow showers"), (86, "Heavy snow showers"),
   (95, "Thunderstorm"), (96, "Thunderstorm with slight hail"),
   (99, "Thunderstorm with heavy hail")]

/-- Embedding of `getWeatherDescription` from src/script.js lines 385-421:
the JS object lookup `codes[code]` with `||` falling back to the string
Unknown (no table entry is falsy, so `||` only fires when the key is
absent). -/
def getWeatherDescription (code : Nat) : String :=
  (wmoDescriptionTable.lookup code).getD "Unknown"

/-- The code values the specification lists for the WMO table (§4.1). -/
def wmoListedCodes : List Nat :=
  [0, 1, 2, 3, 45, 48, 51, 53, 55, 56, 57, 61, 63, 65, 66, 67,
   71, 73, 75, 77, 80, 81, 82, 85, 86, 95, 96, 99]

/-! ## Raw payload data model (spec §3, shape of the Open-Meteo response) -/

/-- The `current` section of the raw payload. -/
structure CurrentData where
  temperature_2m : ℚ
  weather_code : Nat
  is_day : Nat
  relative_humidity_2m : ℚ
  apparent_temperature : ℚ
  wind_speed_10m : ℚ
deriving DecidableEq

/-- The `hourly` section: parallel arrays.  ISO timestamps are modelled by
their instants on a totally ordered integer time axis, since the script only
ever compares `new Date(hourly.time[i])` against `now`. -/
structure HourlyData where
  time : List Int
  temperature_2m : List ℚ
  weather_code : List Nat
  is_day : List Nat
deriving DecidableEq

/-- The `daily` section: parallel arrays; `time` holds `YYYY-MM-DD` strings
(the script compares them lexicographically as strings).  The last five
arrays are the optional ones. -/
structure DailyData where
  time : List String
  temperature_2m_max : List ℚ
  temperature_2m_min : List ℚ
  weather_code : List Nat
  sunrise : Option (List String)
  sunset : Option (List String)
  precipitation_probability_max : Option (List ℚ)
  wind_speed_10m_max : Option (List ℚ)
  uv_index_max : Option (List ℚ)
deriving DecidableEq

/-- The raw forecast payload; a `none` section models an absent JS field. -/
structure RawForecastPayload where
  current : Option CurrentData
  hourly : Option HourlyData
  daily : Option DailyData
deriving DecidableEq

/-! ## Local dates and JS string comparison -/

/-- A local calendar date, the view `getFullYear`/`getMonth`/`getDate`
expose of a JS `Date`. -/
structure LocalDate where
  year : Nat
  month : Nat
  day : Nat
deriving DecidableEq

def isLeapYear (y : Nat) : Bool :=
  (y % 4 == 0 && y % 100 != 0) || y % 400 == 0

def daysInMonth (y m : Nat) : Nat :=
  if m = 2 then (if isLeapYear y then 29 else 28)
  else if m ∈ [4, 6, 9, 11] then 30 else 31

/-- The calendar successor of a date: `tomorrow.setDate(now.getDate() + 1)`
in the source rolls over month and year boundaries exactly like this. -/
def nextDay (d : LocalDate) : LocalDate :=
  if d.day < daysInMonth d.year d.month then ⟨d.year, d.month, d.day + 1⟩
  else if d.month < 12 then ⟨d.year, d.month + 1, 1⟩
  else ⟨d.year + 1, 1, 1⟩

/-- Two-digit zero padding, the padStart call of the source. -/
def pad2 (n : Nat) : String := if n < 10 then "0" ++ toString n else toString n

/-- The template `` `${year}-${month}-${day}` `` with padded month and day
(src/script.js line 298, src/unnamed/part_000 line 370). -/
def dateStr (d : LocalDate) : String :=
  toString d.year ++ "-" ++ pad2 d.month ++ "-" ++ pad2 d.day

/-- JS `<=` on strings: lexicographic comparison of code units.  For the
ASCII date strings at stake the code unit of a character is `Char.val`. -/
def lexLeChars : List Char → List Char → Bool
  | [], _ => true
  | _ :: _, [] => false
  | a :: as, b :: bs =>
    if a.val < b.val then true
    else if b.val < a.val then false
    else lexLeChars as bs

def jsStrLe (a b : String) : Bool := lexLeChars a.data b.data

/-- One wall-clock instant, `new Date()`: its position on the time axis
(used by the hourly comparison) together with its local calendar date
(used by the daily cutoff).  Both views belong to the same moment. -/
structure Instant where
  epoch : Int
  localDate : LocalDate
deriving DecidableEq

/-- The host-locale formatting collaborators the source delegates to
(`toLocaleTimeString`, `toLocaleDateString`); the scripts treat them as
opaque, so the embedding abstracts them as parameters. -/
structure LocaleFmt where
  fmtTimeISO : String → String
  fmtHour : Int → String
  fmtWeekday : String → String

/-! ## Hourly projection (renderHourlyForecast, src/script.js lines 240-285) -/

/-- The scan of src/script.js lines 248-255: the index of the first entry
with `new Date(hourly.time[i]) >= now`, `none` when the loop never breaks. -/
def scanStartIndex (now : Int) : List Int → Option Nat
  | [] => none
  | t :: ts => if now ≤ t then some 0 else (scanStartIndex now ts).map (· + 1)

/-- Value of `startIndex` after the scan: it was initialized to 0 and stays
when no timestamp matched. -/
def startIndex (times : List Int) (now : Int) : Nat :=
  (scanStartIndex now times).getD 0

/-- The index sequence of the loop at src/script.js line 259:
`for (let i = startIndex; i < hourly.time.length && count < 8; i += 3)`. -/
def hourlyIdx (len i count : Nat) : List Nat :=
  if i < len ∧ count < 8 then i :: hourlyIdx len (i + 3) (count + 1) else []
termination_by 8 - count
decreasing_by omega

/-- One hourly strip item (lines 260-281): time label, rounded temperature,
icon.  `is_day` is a number; JS truthiness makes any nonzero value a day. -/
structure HourlyItem where
  timeLabel : String
  temperatureDisplay : Int
  iconId : String
deriving DecidableEq

def buildHourlyItem (fmt : LocaleFmt) (isCelsius : Bool) (h : HourlyData) (i : Nat) :
    HourlyItem :=
  { timeLabel := fmt.fmtHour (h.time.getD i 0)
    temperatureDisplay := formatTemp isCelsius (h.temperature_2m.getD i 0)
    iconId := mapWmoToOwmIcon (h.weather_code.getD i 0) (h.is_day.getD i 0 != 0) }

def renderHourlyForecast (fmt : LocaleFmt) (isCelsius : Bool) (h : HourlyData)
    (now : Int) : List HourlyItem :=
  (hourlyIdx h.time.length (startIndex h.time now) 0).map (buildHourlyItem fmt isCelsius h)

/-! ## Daily forecast list (renderForecast) -/

/-- The index sequence of the loop at src/script.js lines 302-369 (same loop
skeleton at src/unnamed/part_000 lines 374-441): walk the daily dates with
their absolute index `i`, skip a date `<=` the cutoff string, `break` once
`count >= 5` at a qualifying date, else emit the index. -/
def forecastIdx (cutoff : String) : List String → Nat → Nat → List Nat
  | [], _, _ => []
  | d :: ds, i, count =>
    if jsStrLe d cutoff then forecastIdx cutoff ds (i + 1) count
    else if 5 ≤ count then []
    else i :: forecastIdx cutoff ds (i + 1) (count + 1)

/-- One daily forecast row (src/script.js lines 311-366): the optional
arrays fall back to `0` / `"--:--"` exactly as the source ternaries do. -/
structure DailyItem where
  dayName : String
  highDisplay : Int
  lowDisplay : Int
  iconId : String
  rainChancePct : ℚ
  windDisplay : String
  sunriseDisplay : String
  sunsetDisplay : String
deriving DecidableEq

def buildDailyItem (fmt : LocaleFmt) (isCelsius : Bool) (daily : DailyData) (i : Nat) :
    DailyItem :=
  { dayName := fmt.fmtWeekday (daily.time.getD i "")
    highDisplay := formatTemp isCelsius (daily.temperature_2m_max.getD i 0)
    lowDisplay := formatTemp isCelsius (daily.temperature_2m_min.getD i 0)
    iconId := mapWmoToOwmIcon (daily.weather_code.getD i 0) true
    rainChancePct := (daily.precipitation_probability_max.map (fun l => l.getD i 0)).getD 0
    windDisplay := windDisplayStr isCelsius
      ((daily.wind_speed_10m_max.map (fun l => l.getD i 0)).getD 0)
    sunriseDisplay := (daily.sunrise.map (fun l => fmt.fmtTimeISO (l.getD i ""))).getD "--:--"
    sunsetDisplay := (daily.sunset.map (fun l => fmt.fmtTimeISO (l.getD i ""))).getD "--:--" }

/-- Embedding of `renderForecast` from src/script.js lines 287-370: the
cutoff is the local date string of today, so the list starts at tomorrow. -/
def renderForecast (fmt : LocaleFmt) (isCelsius : Bool) (daily : DailyData)
    (today : LocalDate) : List DailyItem :=
  (forecastIdx (dateStr today) daily.time 0 0).map (buildDailyItem fmt isCelsius daily)

/-- Embedding of `renderForecast` from src/unnamed/part_000 lines 355-442:
the cutoff is the local date string of tomorrow, obtained by the setDate
rollover, so the list starts the day after tomorrow. -/
def renderForecastV2 (fmt : LocaleFmt) (isCelsius : Bool) (daily : DailyData)
    (today : LocalDate) : List DailyItem :=
  (forecastIdx (dateStr (nextDay today)) daily.time 0 0).map (buildDailyItem fmt isCelsius daily)

/-! ## Current snapshot and the whole projection (updateUI) -/

/-- The current-conditions block of the page, src/script.js lines 180-228. -/
structure CurrentView where
  temperatureDisplay : Int
  unitSuffix : String
  todayHigh : Int
  todayLow : Int
  description : String
  iconId : String
  sunriseDisplay : String
  sunsetDisplay : String
  humidityPct : ℚ
  windDisplay : String
  feelsLikeDisplay : Int
  rainChancePct : ℚ
  uvIndex : ℚ
deriving DecidableEq

def buildCurrentView (fmt : LocaleFmt) (isCelsius : Bool) (current : CurrentData)
    (daily : DailyData) : CurrentView :=
  { temperatureDisplay := formatTemp isCelsius current.temperature_2m
    unitSuffix := if isCelsius then "°C" else "°F"
    todayHigh := formatTemp isCelsius (daily.temperature_2m_max.getD 0 0)
    todayLow := formatTemp isCelsius (daily.temperature_2m_min.getD 0 0)
    description := getWeatherDescription current.weather_code
    iconId := mapWmoToOwmIcon current.weather_code (current.is_day != 0)
    sunriseDisplay := (daily.sunrise.map (fun l => fmt.fmtTimeISO (l.getD 0 ""))).getD "--:--"
    sunsetDisplay := (daily.sunset.map (fun l => fmt.fmtTimeISO (l.getD 0 ""))).getD "--:--"
    humidityPct := current.relative_humidity_2m
    windDisplay := windDisplayStr isCelsius current.wind_speed_10m
    feelsLikeDisplay := formatTemp isCelsius current.apparent_temperature
    rainChancePct := (daily.precipitation_probability_max.map (fun l => l.getD 0 0)).getD 0
    uvIndex := (daily.uv_index_max.map (fun l => l.getD 0 0)).getD 0 }

structure PresentationModel where
  locationName : String
  current : CurrentView
  hourly : List HourlyItem
  daily : List DailyItem
deriving DecidableEq

inductive UpdateError where
  | malformedPayload
deriving DecidableEq

/-- Embedding of `updateUI` from src/script.js lines 170-238: the guard at
lines 175-178
returns early (logging, rendering nothing) when `current`, `daily` or
`hourly` is absent; otherwise the page model is derived in full. -/
def updateUI (fmt : LocaleFmt) (isCelsius : Bool) (data : RawForecastPayload)
    (locationName : String) (now : Instant) : Except UpdateError PresentationModel :=
  match data.current, data.daily, data.hourly with
  | some current, some daily, some hourly =>
    .ok { locationName := locationName
          current := buildCurrentView fmt isCelsius current daily
          hourly := renderHourlyForecast fmt isCelsius hourly now.epoch
          daily := renderForecast fmt isCelsius daily now.localDate }
  | _, _, _ => .error .malformedPayload

/-! ## Script-level state and the unit toggle (src/script.js lines 12-14, 39-44) -/

structure AppState where
  isCelsius : Bool
  currentWeatherData : Option RawForecastPayload
  currentLocationName : String
  model : Option PresentationModel
deriving DecidableEq

/-- Running `updateUI` against the retained payload: on success the page
shows the fresh model; on the malformed-payload early return the page is
left untouched. -/
def applyUpdateUI (fmt : LocaleFmt) (s : AppState) (now : Instant) : AppState :=
  match s.currentWeatherData with
  | some data =>
    match updateUI fmt s.isCelsius data s.currentLocationName now with
    | .ok m => { s with model := some m }
    | .error _ => s
  | none => s

/-- Embedding of `toggleUnit` (src/script.js lines 39-44): flip the flag,
and when a
payload is retained re-derive the page from it. -/
def toggleUnit (fmt : LocaleFmt) (s : AppState) (now : Instant) : AppState :=
  let s' : AppState := { s with isCelsius := !s.isCelsius }
  match s'.currentWeatherData with
  | some _ => applyUpdateUI fmt s' now
  | none => s'

/-! ## Reverse geocoding (fetchLocationName, src/script.js lines 148-168) -/

/-- The address object of a reverse-geocoding response; `none` is an absent
field, `some ""` an empty (hence falsy) one. -/
structure NominatimAddress where
  city : Option String
  town : Option String
  village : Option String
  suburb : Option String
  county : Option String
deriving DecidableEq

/-- What the awaited `fetch` of `fetchLocationName` can come to:
an exception thrown by the transport or by JSON parsing (caught by the
surrounding `try`), or a response with its `ok` flag and `address` field. -/
inductive ReverseGeocodeOutcome where
  | transportFailure
  | response (ok : Bool) (address : Option NominatimAddress)
deriving DecidableEq

/-- JS `a || b` where `a` is a possibly absent string: an absent or empty
string falls through to `b`. -/
def jsOrString (a : Option String) (b : String) : String :=
  match a with
  | some s => if s = "" then b else s
  | none => b

/-- Embedding of `fetchLocationName` from src/script.js lines 148-168.  A
non-ok response
returns "Unknown Location"; reading `.city` off an absent `address` throws,
landing in the catch like any transport failure, hence "Your Location". -/
def fetchLocationName (r : ReverseGeocodeOutcome) : String :=
  match r with
  | .transportFailure => "Your Location"
  | .response false _ => "Unknown Location"
  | .response true none => "Your Location"
  | .response true (some addr) =>
    jsOrString addr.city (jsOrString addr.town (jsOrString addr.village
      (jsOrString addr.suburb (jsOrString addr.county "Your Location"))))

/-- The preference order the specification states for the display name:
first present (non-falsy) field wins, else the fixed fallback. -/
def preferredName : List (Option String) → String
  | [] => "Your Location"
  | f :: rest =>
    match f with
    | some s => if s = "" then preferredName rest else s
    | none => preferredName rest

/-! ## Concrete example data -/

/-- Identity-like stand-in for the host-locale formatters, used for the
concrete examples. -/
def trivialFmt : LocaleFmt :=
  { fmtTimeISO := fun s => s, fmtHour := fun t => toString t, fmtWeekday := fun s => s }

/-- A fixed instant for the concrete examples: local date 2026-10-11. -/
def exInstant : Instant := ⟨0, ⟨2026, 10, 11⟩⟩

/-- Twenty-four equally-spaced hourly samples (hours 0..23 of one day). -/
def ex24Times : List Int :=
  [0, 1, 2, 3, 4, 5, 6, 7, 8, 9, 10, 11, 12, 13, 14, 15, 16, 17, 18, 19, 20, 21, 22, 23]

def ex24Hourly : HourlyData :=
  { time := ex24Times
    temperature_2m := List.replicate 24 10
    weather_code := List.replicate 24 0
    is_day := List.replicate 24 1 }

def emptyHourly : HourlyData := ⟨[], [], [], []⟩

/-- An 8-day daily payload whose day 0 is "today" (2026-10-11). -/
def exDaily8 : DailyData :=
  { time := ["2026-10-11", "2026-10-12", "2026-10-13", "2026-10-14",
             "2026-10-15", "2026-10-16", "2026-10-17", "2026-10-18"]
    temperature_2m_max := [10, 11, 12, 13, 14, 15, 16, 17]
    temperature_2m_min := [0, 1, 2, 3, 4, 5, 6, 7]
    weather_code := [0, 0, 0, 0, 0, 0, 0, 0]
    sunrise := none
    sunset := none
    precipitation_probability_max := none
    wind_speed_10m_max := none
    uv_index_max := none }

def exToday : LocalDate := ⟨2026, 10, 11⟩

/-- A well-formed current section used by the concrete payloads. -/
def exCurrent : CurrentData :=
  { temperature_2m := 20, weather_code := 0, is_day := 1,
    relative_humidity_2m := 50, apparent_temperature := 18, wind_speed_10m := 10 }

/-- A daily section with all required arrays aligned (2 days) and every
optional array absent. -/
def exDaily2 : DailyData :=
  { time := ["2026-10-11", "2026-10-12"]
    temperature_2m_max := [15, 16]
    temperature_2m_min := [5, 6]
    weather_code := [0, 3]
    sunrise := none, sunset := none
    precipitation_probability_max := none, wind_speed_10m_max := none, uv_index_max := none }

/-- A payload whose `daily` section is absent. -/
def noDailyPayload : RawForecastPayload :=
  { current := some exCurrent, hourly := some ex24Hourly, daily := none }

/-- An hourly section violating the parallel-length invariant of spec §3:
`time` has 2 entries, the other arrays 1. -/
def mismatchedHourly : HourlyData :=
  { time := [0, 3600], temperature_2m := [10], weather_code := [0], is_day := [1] }

/-- A payload with all three sections present but mismatched hourly array
lengths. -/
def mismatchedPayload : RawForecastPayload :=
  { current := some exCurrent, hourly := some mismatchedHourly, daily := some exDaily2 }

/-- A placeholder model (only used as the `getD` default below; never the
actual value of a projection in the statements). -/
def dummyModel : PresentationModel :=
  { locationName := ""
    current := { temperatureDisplay := 0, unitSuffix := "", todayHigh := 0, todayLow := 0,
                 description := "", iconId := "", sunriseDisplay := "", sunsetDisplay := "",
                 humidityPct := 0, windDisplay := "", feelsLikeDisplay := 0,
                 rainChancePct := 0, uvIndex := 0 }
    hourly := []
    daily := [] }

/-- A well-formed payload for the unit-toggle example. -/
def wfPayload : RawForecastPayload :=
  { current := some exCurrent, hourly := some ex24Hourly, daily := some exDaily2 }

/-- The model the script derives from `wfPayload` under Fahrenheit. -/
def wfModel : PresentationModel :=
  (updateUI trivialFmt false wfPayload "Home" exInstant).toOption.getD dummyModel

/-- The §8 example payload: current `{temperature_2m: 20, weather_code: 0,
is_day: 1}` with minimal well-formed hourly and daily sections. -/
def examplePayload : RawForecastPayload :=
  { current := some exCurrent, hourly := some emptyHourly,
    daily := some { time := [], temperature_2m_max := [], temperature_2m_min := [],
                    weather_code := [], sunrise := none, sunset := none,
                    precipitation_probability_max := none, wind_speed_10m_max := none,
                    uv_index_max := none } }

/-! ## Helper lemmas -/

theorem mapWmoToOwmIcon_eq_base (code : Nat) (isDay : Bool) :
    mapWmoToOwmIcon code isDay = iconBaseSpec code ++ daySuffix isDay := by
  simp only [mapWmoToOwmIcon, iconBaseSpec]
  split_ifs <;> rfl

theorem lookup_eq_none_of_not_mem_keys {l : List (Nat × String)} {n : Nat}
    (h : n ∉ l.map Prod.fst) : l.lookup n = none := by
  induction l with
  | nil => rfl
  | cons p l ih =>
    obtain ⟨k, v⟩ := p
    simp only [List.map_cons, List.mem_cons, not_or] at h
    have hk : (n == k) = false := beq_false_of_ne h.1
    simp [List.lookup_cons, hk, ih h.2]

theorem jsOrString_preferredName (f : Option String) (rest : List (Option String)) :
    jsOrString f (preferredName rest) = preferredName (f :: rest) := by
  cases f <;> simp [jsOrString, preferredName]

theorem scanStartIndex_eq_none_iff (now : Int) (ts : List Int) :
    scanStartIndex now ts = none ↔ ∀ t ∈ ts, t < now := by
  induction ts with
  | nil => simp [scanStartIndex]
  | cons t ts ih =>
    by_cases h : now ≤ t
    · simp only [scanStartIndex, if_pos h]
      constructor
      · intro hfalse
        exact absurd hfalse (by simp)
      · intro hall
        exact absurd (hall t (List.mem_cons_self t ts)) (by omega)
    · have ht : t < now := by omega
      simp [scanStartIndex, if_neg h, Option.map_eq_none', ih, ht]

theorem scanStartIndex_some_spec (now : Int) (ts : List Int) (i : Nat)
    (h : scanStartIndex now ts = some i) :
    i < ts.length ∧ now ≤ ts.getD i 0 ∧ ∀ j, j < i → ts.getD j 0 < now := by
  induction ts generalizing i with
  | nil => simp [scanStartIndex] at h
  | cons t ts ih =>
    by_cases hc : now ≤ t
    · simp only [scanStartIndex, if_pos hc, Option.some.injEq] at h
      subst h
      refine ⟨by simp, by simpa using hc, ?_⟩
      intro j hj
      omega
    · simp only [scanStartIndex, if_neg hc] at h
      obtain ⟨i', hi', rfl⟩ := Option.map_eq_some'.mp h
      obtain ⟨h1, h2, h3⟩ := ih i' hi'
      refine ⟨by simpa using h1, by simpa using h2, ?_⟩
      intro j hj
      match j with
      | 0 => simpa using (by omega : t < now)
      | j + 1 =>
        simp only [List.getD_cons_succ]
        exact h3 j (by omega)

theorem hourlyIdx_spec (len i count : Nat) :
    (hourlyIdx len i count).length ≤ 8 - count ∧
    (∀ k, k < (hourlyIdx len i count).length → (hourlyIdx len i count).getD k 0 = i + 3 * k) ∧
    (∀ j ∈ hourlyIdx len i count, i ≤ j ∧ j < len) := by
  rw [hourlyIdx]
  split
  · rename_i h
    have ih := hourlyIdx_spec len (i + 3) (count + 1)
    refine ⟨?_, ?_, ?_⟩
    · simp only [List.length_cons]
      omega
    · intro k hk
      match k with
      | 0 => simp
      | k + 1 =>
        simp only [List.length_cons, Nat.add_lt_add_iff_right] at hk
        simp only [List.getD_cons_succ]
        rw [ih.2.1 k hk]
        omega
    · intro j hj
      rcases List.mem_cons.mp hj with rfl | hj
      · exact ⟨Nat.le_refl _, h.1⟩
      · have := ih.2.2 j hj
        omega
  · simp
termination_by 8 - count
decreasing_by omega

theorem forecastIdx_eq (cutoff : String) (ds : List String) (i count : Nat)
    (hc : count ≤ 5) :
    forecastIdx cutoff ds i count =
      ((((ds.enumFrom i).filter (fun p => !(jsStrLe p.2 cutoff))).map Prod.fst).take
        (5 - count)) := by
  induction ds generalizing i count with
  | nil => simp [forecastIdx]
  | cons d ds ih =>
    simp only [forecastIdx, List.enumFrom_cons, List.filter_cons]
    by_cases hd : jsStrLe d cutoff
    · simp only [hd, Bool.not_true, Bool.false_eq_true, if_false]
      exact ih (i + 1) count hc
    · simp only [Bool.not_eq_true] at hd
      simp only [hd, Bool.not_false, if_true, List.map_cons]
      by_cases h5 : 5 ≤ count
      · have hc5 : count = 5 := le_antisymm hc h5
        simp [if_pos h5, hc5]
      · rw [if_neg h5]
        have hstep : 5 - count = (5 - (count + 1)) + 1 := by omega
        rw [hstep, List.take_succ_cons, ih (i + 1) (count + 1) (by omega)]
        simp

/-! ## Claim theorems -/

/-- C5: for every Celsius input `c`, `formatTemp` under the metric flag is
`round c` and under the imperial flag is `round (c * 9/5 + 32)`, where
`round` is round-to-nearest (half up); the function is total. -/
theorem formatTemp_round_spec (c : ℚ) :
    formatTemp true c = round c ∧ formatTemp false c = round (c * 9 / 5 + 32) := by
  constructor <;> simp [formatTemp, jsRound, round_eq]

/-- C4: the icon map agrees with the piecewise table of the specification for
every integer code and day flag (in particular it is total over 0-99), and
its two-digit base is always one of the listed icon codes. -/
theorem mapWmoToOwmIcon_spec (code : Nat) (isDay : Bool) :
    mapWmoToOwmIcon code isDay = iconIdSpec code isDay ∧
    iconBaseSpec code ∈ (["01", "02", "03", "04", "50", "10", "13", "11"] : List String) := by
  constructor
  · rw [mapWmoToOwmIcon_eq_base]
    rfl
  · simp only [iconBaseSpec]
    split_ifs <;> decide

/-- C1 (amended): the daily forecast list computes a local YYYY-MM-DD cutoff
equal to tomorrow relative to now, skips every daily entry whose date string
is `<=` that cutoff (the emitted list begins strictly after tomorrow), and
emits at most 5 consecutive qualifying entries in input order; on an 8-day
payload with today at index 0 this yields exactly 5 entries starting at day
index 2 (the day after tomorrow, days 0 and 1 being skipped). -/
theorem renderForecastV2_spec (fmt : LocaleFmt) (b : Bool) (daily : DailyData)
    (today : LocalDate) :
    renderForecastV2 fmt b daily today =
      (((((daily.time.enumFrom 0).filter
            (fun p => !(jsStrLe p.2 (dateStr (nextDay today))))).map Prod.fst).take 5).map
        (buildDailyItem fmt b daily)) ∧
    (renderForecastV2 fmt b daily today).length ≤ 5 ∧
    forecastIdx (dateStr (nextDay exToday)) exDaily8.time 0 0 = [2, 3, 4, 5, 6] ∧
    renderForecastV2 trivialFmt true exDaily8 exToday =
      [2, 3, 4, 5, 6].map (buildDailyItem trivialFmt true exDaily8) := by
  have hchar : renderForecastV2 fmt b daily today =
      (((((daily.time.enumFrom 0).filter
            (fun p => !(jsStrLe p.2 (dateStr (nextDay today))))).map Prod.fst).take 5).map
        (buildDailyItem fmt b daily)) := by
    unfold renderForecastV2
    rw [forecastIdx_eq _ _ 0 0 (by omega)]
  refine ⟨hchar, ?_, by decide, ?_⟩
  · rw [hchar]
    simp only [List.length_map, List.length_take]
    omega
  · unfold renderForecastV2
    rw [show forecastIdx (dateStr (nextDay exToday)) exDaily8.time 0 0 = [2, 3, 4, 5, 6]
      from by decide]

/-- C1 counterexample: on the 8-day payload with today (2026-10-11) at index
0, the list has 5 entries but its first entry is the one built from day
index 2, not the one built from day index 3 as the claim states. -/
theorem renderForecastV2_counterexample :
    (renderForecastV2 trivialFmt true exDaily8 exToday).length = 5 ∧
    (renderForecastV2 trivialFmt true exDaily8 exToday).head? =
      some (buildDailyItem trivialFmt true exDaily8 2) ∧
    (renderForecastV2 trivialFmt true exDaily8 exToday).head? ≠
      some (buildDailyItem trivialFmt true exDaily8 3) := by
  have hidx : forecastIdx (dateStr (nextDay exToday)) exDaily8.time 0 0 = [2, 3, 4, 5, 6] := by
    decide
  refine ⟨?_, ?_, ?_⟩
  · unfold renderForecastV2
    rw [hidx]
    rfl
  · unfold renderForecastV2
    rw [hidx]
    rfl
  · unfold renderForecastV2
    rw [hidx]
    intro h
    have h2 := Option.some.inj h
    have h3 : (buildDailyItem trivialFmt true exDaily8 2).dayName =
        (buildDailyItem trivialFmt true exDaily8 3).dayName := by
      rw [show ([2, 3, 4, 5, 6].map (buildDailyItem trivialFmt true exDaily8)).head? =
        some (buildDailyItem trivialFmt true exDaily8 2) from rfl] at h
      exact congrArg DailyItem.dayName (Option.some.inj h)
    exact absurd h3 (by decide)

/-- C2: the hourly projection starts at the first index whose timestamp is
`>= now` (index 0 when no such index exists), then takes every 3rd index up
to 8 samples; on 24 equally-spaced samples with now before all of them it
starts at index 0 and yields exactly 8 entries. -/
theorem renderHourlyForecast_spec :
    (∀ (times : List Int) (now : Int),
        (∀ t ∈ times, t < now) → startIndex times now = 0) ∧
    (∀ (times : List Int) (now : Int) (i : Nat), scanStartIndex now times = some i →
        startIndex times now = i ∧ i < times.length ∧ now ≤ times.getD i 0 ∧
        ∀ j, j < i → times.getD j 0 < now) ∧
    (∀ (fmt : LocaleFmt) (b : Bool) (h : HourlyData) (now : Int),
        renderHourlyForecast fmt b h now =
          (hourlyIdx h.time.length (startIndex h.time now) 0).map (buildHourlyItem fmt b h)) ∧
    (∀ len start : Nat, (hourlyIdx len start 0).length ≤ 8 ∧
        ∀ k, k < (hourlyIdx len start 0).length →
          (hourlyIdx len start 0).getD k 0 = start + 3 * k) ∧
    startIndex ex24Times (-1) = 0 ∧
    (renderHourlyForecast trivialFmt false ex24Hourly (-1)).length = 8 := by
  have hidx : hourlyIdx 24 0 0 = [0, 3, 6, 9, 12, 15, 18, 21] := by
    repeat (rw [hourlyIdx]; norm_num)
  refine ⟨?_, ?_, ?_, ?_, by decide, ?_⟩
  · intro times now hall
    unfold startIndex
    rw [(scanStartIndex_eq_none_iff now times).mpr hall]
    rfl
  · intro times now i h
    obtain ⟨h1, h2, h3⟩ := scanStartIndex_some_spec now times i h
    exact ⟨by simp [startIndex, h], h1, h2, h3⟩
  · intro fmt b h now
    rfl
  · intro len start
    have := hourlyIdx_spec len start 0
    exact ⟨this.1, this.2.1⟩
  · have hstart : startIndex ex24Hourly.time (-1) = 0 := by decide
    unfold renderHourlyForecast
    rw [hstart, show ex24Hourly.time.length = 24 from by decide, hidx]
    rfl

/-- C2 witness: on a payload whose timestamps all lie in the past, the scan
falls back to start index 0. -/
theorem renderHourlyForecast_spec_witness : startIndex [-10, -5] 0 = 0 :=
  renderHourlyForecast_spec.1 [-10, -5] 0 (by decide)

/-- C10: on hourly arrays of length 0 the projection is the empty sequence,
and in general every index the stride-3 loop visits is within bounds (and no
smaller than its start), for every start index; the scanned start index is
either the fallback 0 or a valid index. -/
theorem renderHourlyForecast_safety :
    (∀ (fmt : LocaleFmt) (b : Bool) (hd : HourlyData) (now : Int),
        hd.time = [] → renderHourlyForecast fmt b hd now = []) ∧
    (∀ len start count : Nat, ∀ j ∈ hourlyIdx len start count, start ≤ j ∧ j < len) ∧
    (∀ (times : List Int) (now : Int), startIndex times now = 0 ∨
        (startIndex times now < times.length ∧ now ≤ times.getD (startIndex times now) 0)) := by
  refine ⟨?_, ?_, ?_⟩
  · intro fmt b hd now ht
    unfold renderHourlyForecast
    rw [ht]
    rw [hourlyIdx]
    simp
  · intro len start count j hj
    exact (hourlyIdx_spec len start count).2.2 j hj
  · intro times now
    cases h : scanStartIndex now times with
    | none => exact Or.inl (by simp [startIndex, h])
    | some i =>
      obtain ⟨h1, h2, _⟩ := scanStartIndex_some_spec now times i h
      have hs : startIndex times now = i := by simp [startIndex, h]
      exact Or.inr (by rw [hs]; exact ⟨h1, h2⟩)

/-- C10 witness: the projection of an empty hourly section is empty. -/
theorem renderHourlyForecast_safety_witness :
    renderHourlyForecast trivialFmt false emptyHourly 0 = [] :=
  renderHourlyForecast_safety.1 trivialFmt false emptyHourly 0 rfl

/-- C3 (amended): `updateUI` fails with the malformed-payload condition,
rendering nothing, exactly when `current`, `daily` or `hourly` is absent
from the raw payload; violations of the parallel array length invariant are
not checked and do not cause a failure. -/
theorem updateUI_malformed_spec (fmt : LocaleFmt) (b : Bool) (p : RawForecastPayload)
    (name : String) (now : Instant) :
    (updateUI fmt b p name now = .error .malformedPayload ↔
      (p.current = none ∨ p.daily = none ∨ p.hourly = none)) ∧
    ((p.current = none ∨ p.daily = none ∨ p.hourly = none) →
      ∀ s : AppState, s.currentWeatherData = some p → applyUpdateUI fmt s now = s) := by
  obtain ⟨c, h, d⟩ := p
  constructor
  · cases c <;> cases d <;> cases h <;> simp [updateUI]
  · intro habs s hs
    unfold applyUpdateUI
    rw [hs]
    have herr : updateUI fmt s.isCelsius ⟨c, h, d⟩ s.currentLocationName now =
        .error .malformedPayload := by
      cases c <;> cases d <;> cases h <;> simp_all [updateUI]
    simp [herr]

/-- C3 witness: a payload missing `daily` makes `updateUI` fail with the
malformed-payload condition. -/
theorem updateUI_malformed_spec_witness :
    updateUI trivialFmt false noDailyPayload "x" exInstant = .error .malformedPayload :=
  (updateUI_malformed_spec trivialFmt false noDailyPayload "x" exInstant).1.mpr
    (Or.inr (Or.inl rfl))

/-- C3 counterexample: a payload with all three sections present but an
hourly length-invariant violation (2 timestamps against 1 temperature) is
not rejected — `updateUI` still produces a presentation model. -/
theorem updateUI_lengthInvariant_counterexample :
    mismatchedHourly.time.length = 2 ∧
    mismatchedHourly.temperature_2m.length = 1 ∧
    mismatchedPayload.hourly = some mismatchedHourly ∧
    (updateUI trivialFmt false mismatchedPayload "x" exInstant).toOption.isSome = true :=
  ⟨rfl, rfl, rfl, rfl⟩

/-- C6: from a state holding a retained payload and the model derived from
it, toggling the unit system twice restores the exact original state (same
flag, same retained payload, same model), and re-deriving under the same
unit system leaves the state unchanged; each derivation is a fresh run of
the projection over the retained payload. -/
theorem toggleUnit_roundtrip (fmt : LocaleFmt) (now : Instant) (name : String) (b : Bool)
    (p : RawForecastPayload) (m : PresentationModel)
    (hm : updateUI fmt b p name now = .ok m) :
    toggleUnit fmt (toggleUnit fmt ⟨b, some p, name, some m⟩ now) now =
      (⟨b, some p, name, some m⟩ : AppState) ∧
    applyUpdateUI fmt ⟨b, some p, name, some m⟩ now = ⟨b, some p, name, some m⟩ := by
  obtain ⟨c, h, d⟩ := p
  match hc : c, hd : d, hh : h with
  | none, _, _ => simp [updateUI] at hm
  | some c, none, _ => simp [updateUI] at hm
  | some c, some d, none => simp [updateUI] at hm
  | some c, some d, some h =>
    simp only [updateUI, Except.ok.injEq] at hm
    constructor
    · simp [toggleUnit, applyUpdateUI, updateUI, Bool.not_not, hm]
    · simp [applyUpdateUI, updateUI, hm]

/-- C6 witness: toggling twice from the concrete Fahrenheit state restores
it exactly. -/
theorem toggleUnit_roundtrip_witness :
    toggleUnit trivialFmt
        (toggleUnit trivialFmt ⟨false, some wfPayload, "Home", some wfModel⟩ exInstant)
        exInstant =
      (⟨false, some wfPayload, "Home", some wfModel⟩ : AppState) :=
  (toggleUnit_roundtrip trivialFmt exInstant "Home" false wfPayload wfModel rfl).1

/-- C7: when every optional daily array is absent, every row of the daily
forecast list (and the today block of the current view) carries the explicit
defaults: 0 for rain chance, uv index and the max-wind value fed to the wind
display, "--:--" for the sunrise and sunset displays. -/
theorem missingOptional_defaults (fmt : LocaleFmt) (b : Bool) (daily : DailyData)
    (today : LocalDate)
    (hp : daily.precipitation_probability_max = none) (hu : daily.uv_index_max = none)
    (hw : daily.wind_speed_10m_max = none) (hsr : daily.sunrise = none)
    (hss : daily.sunset = none) :
    (∀ i : Nat, (buildDailyItem fmt b daily i).rainChancePct = 0 ∧
        (buildDailyItem fmt b daily i).windDisplay = windDisplayStr b 0 ∧
        (buildDailyItem fmt b daily i).sunriseDisplay = "--:--" ∧
        (buildDailyItem fmt b daily i).sunsetDisplay = "--:--") ∧
    (∀ it ∈ renderForecast fmt b daily today, it.rainChancePct = 0 ∧
        it.windDisplay = windDisplayStr b 0 ∧ it.sunriseDisplay = "--:--" ∧
        it.sunsetDisplay = "--:--") ∧
    (∀ c : CurrentData, (buildCurrentView fmt b c daily).rainChancePct = 0 ∧
        (buildCurrentView fmt b c daily).uvIndex = 0 ∧
        (buildCurrentView fmt b c daily).sunriseDisplay = "--:--" ∧
        (buildCurrentView fmt b c daily).sunsetDisplay = "--:--") := by
  have hitem : ∀ i : Nat, (buildDailyItem fmt b daily i).rainChancePct = 0 ∧
      (buildDailyItem fmt b daily i).windDisplay = windDisplayStr b 0 ∧
      (buildDailyItem fmt b daily i).sunriseDisplay = "--:--" ∧
      (buildDailyItem fmt b daily i).sunsetDisplay = "--:--" := by
    intro i
    simp [buildDailyItem, hp, hw, hsr, hss]
  refine ⟨hitem, ?_, ?_⟩
  · intro it hit
    obtain ⟨i, _, rfl⟩ := List.mem_map.mp hit
    exact hitem i
  · intro c
    simp [buildCurrentView, hp, hu, hsr, hss]

/-- C7 witness: on the concrete optional-free daily section, row 0 carries
all the defaults. -/
theorem missingOptional_defaults_witness :
    (buildDailyItem trivialFmt false exDaily2 0).rainChancePct = 0 ∧
    (buildDailyItem trivialFmt false exDaily2 0).windDisplay = windDisplayStr false 0 ∧
    (buildDailyItem trivialFmt false exDaily2 0).sunriseDisplay = "--:--" ∧
    (buildDailyItem trivialFmt false exDaily2 0).sunsetDisplay = "--:--" :=
  (missingOptional_defaults trivialFmt false exDaily2 ⟨2026, 10, 11⟩
    rfl rfl rfl rfl rfl).1 0

/-- C8: the description lookup returns the fixed table entry for every
listed code (code 0 in particular yields "Clear sky") and fails over to
"Unknown" for any other integer code; and the §8 example current section
under Imperial projects to temperature display 68, icon "01d", description
"Clear sky". -/
theorem getWeatherDescription_spec :
    wmoDescriptionTable.map Prod.fst = wmoListedCodes ∧
    (∀ p ∈ wmoDescriptionTable, getWeatherDescription p.1 = p.2) ∧
    (∀ code : Nat, code ∉ wmoListedCodes → getWeatherDescription code = "Unknown") ∧
    getWeatherDescription 0 = "Clear sky" ∧
    ((updateUI trivialFmt false examplePayload "x" exInstant).toOption.map
        (fun m => (m.current.temperatureDisplay, m.current.iconId, m.current.description))) =
      some (68, "01d", "Clear sky") := by
  refine ⟨by decide, by decide, ?_, by decide, ?_⟩
  · intro code h
    unfold getWeatherDescription
    rw [lookup_eq_none_of_not_mem_keys]
    · rfl
    · rw [show wmoDescriptionTable.map Prod.fst = wmoListedCodes from by decide]
      exact h
  · have h68 : formatTemp false 20 = 68 := by
      norm_num [formatTemp, jsRound]
    have hicon : mapWmoToOwmIcon 0 ((1 : Nat) != 0) = "01d" := by decide
    have hdesc : getWeatherDescription 0 = "Clear sky" := by decide
    have hred : (updateUI trivialFmt false examplePayload "x" exInstant).toOption.map
        (fun m => (m.current.temperatureDisplay, m.current.iconId, m.current.description)) =
        some (formatTemp false 20, mapWmoToOwmIcon 0 ((1 : Nat) != 0),
          getWeatherDescription 0) := rfl
    rw [hred, h68, hicon, hdesc]

/-- C8 witness: an unlisted code falls over to "Unknown". -/
theorem getWeatherDescription_spec_witness : getWeatherDescription 42 = "Unknown" :=
  getWeatherDescription_spec.2.2.1 42 (by decide)

/-- C9: reverse geocoding returns the first present (non-falsy) address
field in the preference order city, town, village, suburb, county and falls
back to "Your Location" when none is present; a transport failure (a thrown
fetch or parse, the caught path) returns the same "Your Location" silently,
and an address-free body does too. -/
theorem fetchLocationName_spec :
    fetchLocationName .transportFailure = "Your Location" ∧
    (∀ a : NominatimAddress, fetchLocationName (.response true (some a)) =
        preferredName [a.city, a.town, a.village, a.suburb, a.county]) ∧
    fetchLocationName (.response true (some ⟨none, none, none, none, none⟩)) =
      "Your Location" ∧
    fetchLocationName (.response true none) = "Your Location" := by
  refine ⟨rfl, ?_, rfl, rfl⟩
  intro a
  show jsOrString a.city (jsOrString a.town (jsOrString a.village
      (jsOrString a.suburb (jsOrString a.county "Your Location")))) = _
  rw [show ("Your Location" : String) = preferredName [] from rfl,
    jsOrString_preferredName, jsOrString_preferredName, jsOrString_preferredName,
    jsOrString_preferredName, jsOrString_preferredName]

end Weather
